import Mathlib

/-!
Shallow embedding of the `seaqs` crate: typed query-filter sets
(`src/filters/*.rs`), the `QueryFilter` envelope (`src/query.rs`) and the
statement applier (`src/seaq.rs`).  Rust `i32` values are modelled as `Int`
with explicit two's-complement wrapping where the code can overflow, `Vec`
as `List`, `Option` as `Option`, and sea_query conditions as a small
fragment AST where a condition is the conjunction of a fragment list in
order.
-/

namespace Seaqs

/-- 32-bit two's-complement wrapping, for Rust `i32` subtraction. -/
def wrap32 (x : Int) : Int := (x + 2 ^ 31) % 2 ^ 32 - 2 ^ 31

/-- Rust `i32 as u64`: sign-extend then reinterpret as unsigned. -/
def as_u64 (x : Int) : Int := x % 2 ^ 64

/-- chrono `NaiveDate`: calendar date, ordered lexicographically. -/
structure NaiveDate where
  y : Int
  m : Nat
  d : Nat
deriving DecidableEq, Repr

/-- chrono `NaiveDateTime`: date plus wall-clock time. -/
structure NaiveDateTime where
  date : NaiveDate
  hh : Nat
  mi : Nat
  ss : Nat
deriving DecidableEq, Repr

/-- chrono `DateTime<FixedOffset>`: naive datetime plus a UTC offset. -/
structure DateTimeTz where
  dt : NaiveDateTime
  offsetSecs : Int
deriving DecidableEq, Repr

/-- uuid `Uuid`: a 128-bit identifier. -/
structure Uuid where
  val : Nat
deriving DecidableEq, Repr

/-- A typed SQL literal operand. -/
inductive Value where
  | int (n : Int)
  | str (s : String)
  | date (d : NaiveDate)
  | dateTime (d : NaiveDateTime)
  | dateTimeTz (d : DateTimeTz)
  | uuid (u : Uuid)
deriving DecidableEq, Repr

/-- A binary comparison operator of the condition language. -/
inductive BinOper where
  | eq | ne | lt | lte | gt | gte
deriving DecidableEq, Repr

/-- One atomic predicate fragment (`Expr::col(iden).op(val).into_condition()`). -/
inductive Fragment where
  | binary (col : String) (op : BinOper) (v : Value)
  | like (col : String) (pat : String)
  | notLike (col : String) (pat : String)
  | isIn (col : String) (vs : List Value)
deriving DecidableEq, Repr

/-- A sea_query `Cond::all`: the conjunction, in order, of its fragments. -/
abbrev Cond := List Fragment

/-- `QueryFilter<T>` from `src/query.rs`: pagination, sort and filter envelope. -/
structure QueryFilter (T : Type) where
  start : Option Int := none
  «end» : Option Int := none
  sort : Option String := none
  order : Option String := none
  filter : Option T := none

/-- `QueryFilter::get_offset`: `start` if present, else 0. -/
def QueryFilter.get_offset {T : Type} (q : QueryFilter T) : Int :=
  match q.start with
  | some offset => offset
  | none => 0

/-- `QueryFilter::get_limit`: `max(end - offset, 1)` if `end` present, else 10.
The `i32` subtraction wraps. -/
def QueryFilter.get_limit {T : Type} (q : QueryFilter T) (offset : Int) : Int :=
  match q.«end» with
  | some e => max (wrap32 (e - offset)) 1
  | none => 10

/-- `Filter::validate_sortable_field`: linear scan of `SORTABLE_FIELDS`,
returning the matching list element, else `None`. -/
def validate_sortable_field (sortable : List String) (field : String) : Option String :=
  match sortable with
  | [] => none
  | f :: rest => if f == field then some f else validate_sortable_field rest field

/-- `Filter::get_max_limit` default body. -/
def get_max_limit : Int := 100

/-- `QueryFilter::get_sort`: validate the requested field against the
filter-group's `SORTABLE_FIELDS`. -/
def QueryFilter.get_sort {T : Type} (sortable : List String) (q : QueryFilter T) :
    Option String :=
  match q.sort with
  | some field => validate_sortable_field sortable field
  | none => none

/-- The `Order` enum from `src/query.rs`. -/
inductive Order where
  | Asc
  | Desc
  | None
deriving DecidableEq, Repr

/-- Rust `str::to_ascii_uppercase`: uppercase each character (ASCII letters
only, as in Lean `Char.toUpper`). -/
def to_ascii_uppercase (s : String) : String := ⟨s.data.map Char.toUpper⟩

/-- `FromStr for Order`: case-insensitive `ASC` / `DESC`, otherwise an error. -/
def Order.from_str (val : String) : Except Unit Order :=
  match to_ascii_uppercase val with
  | "ASC" => .ok .Asc
  | "DESC" => .ok .Desc
  | _ => .error ()

/-- `QueryFilter::get_order`: parse `order`, falling back to `Order::None`. -/
def QueryFilter.get_order {T : Type} (q : QueryFilter T) : Order :=
  match q.order with
  | some val =>
    match Order.from_str val with
    | .ok o => o
    | .error _ => .None
  | none => .None

/-- `Order::as_str`. -/
def Order.as_str (o : Order) : String :=
  match o with
  | .Desc => "DESC"
  | _ => "ASC"

/-- The sea_query `Order` enum. -/
inductive SeaOrder where
  | Asc
  | Desc
deriving DecidableEq, Repr

/-- `Order::to_seaquery`. -/
def Order.to_seaquery (o : Order) : SeaOrder :=
  match o with
  | .Desc => .Desc
  | _ => .Asc

/-- `DateFilter` from `src/filters/date.rs`. -/
inductive DateFilter where
  | Before (d : NaiveDate)
  | After (d : NaiveDate)
  | Equals (d : NaiveDate)
  | NotEquals (d : NaiveDate)
deriving DecidableEq, Repr

/-- `DateFilterSet`: ordered list of date filters (the `Vec` of the tuple struct). -/
structure DateFilterSet where
  val : List DateFilter := []
deriving DecidableEq, Repr

/-- `DateFilterSet::push`: `Vec::push`, appending at the end. -/
def DateFilterSet.push (s : DateFilterSet) (value : DateFilter) : DateFilterSet :=
  ⟨s.val ++ [value]⟩

/-- `DateFilterSet::is_empty`. -/
def DateFilterSet.is_empty (s : DateFilterSet) : Bool := s.val.isEmpty

/-- `ToFieldCond for DateFilter`. -/
def DateFilter.to_cond (f : DateFilter) (iden : String) : Option Cond :=
  some (match f with
  | .Equals val => [.binary iden .eq (.date val)]
  | .NotEquals val => [.binary iden .ne (.date val)]
  | .Before val => [.binary iden .lt (.date val)]
  | .After val => [.binary iden .gte (.date val)])

/-- `ToFieldCond for DateFilterSet`: fold `Cond::all().add(...)` over the list. -/
def DateFilterSet.to_cond (s : DateFilterSet) (iden : String) : Option Cond :=
  some (s.val.foldl (fun conds f =>
    match DateFilter.to_cond f iden with
    | some fr => conds ++ fr
    | none => conds) [])

/-- `DateTimeFilter` from `src/filters/datetime.rs`. -/
inductive DateTimeFilter where
  | Before (d : NaiveDateTime)
  | After (d : NaiveDateTime)
  | Equals (d : NaiveDateTime)
  | NotEquals (d : NaiveDateTime)
deriving DecidableEq, Repr

/-- `DateTimeFilterSet`. -/
structure DateTimeFilterSet where
  val : List DateTimeFilter := []
deriving DecidableEq, Repr

/-- `DateTimeFilterSet::push`. -/
def DateTimeFilterSet.push (s : DateTimeFilterSet) (value : DateTimeFilter) :
    DateTimeFilterSet :=
  ⟨s.val ++ [value]⟩

/-- `DateTimeFilterSet::is_empty`. -/
def DateTimeFilterSet.is_empty (s : DateTimeFilterSet) : Bool := s.val.isEmpty

/-- `ToFieldCond for DateTimeFilter`. -/
def DateTimeFilter.to_cond (f : DateTimeFilter) (iden : String) : Option Cond :=
  some (match f with
  | .Equals val => [.binary iden .eq (.dateTime val)]
  | .NotEquals val => [.binary iden .ne (.dateTime val)]
  | .Before val => [.binary iden .lt (.dateTime val)]
  | .After val => [.binary iden .gte (.dateTime val)])

/-- `ToFieldCond for DateTimeFilterSet`. -/
def DateTimeFilterSet.to_cond (s : DateTimeFilterSet) (iden : String) : Option Cond :=
  some (s.val.foldl (fun conds f =>
    match DateTimeFilter.to_cond f iden with
    | some fr => conds ++ fr
    | none => conds) [])

/-- `DateTimeTzFilter` from `src/filters/datetime_tz.rs`. -/
inductive DateTimeTzFilter where
  | Before (d : DateTimeTz)
  | After (d : DateTimeTz)
  | Equals (d : DateTimeTz)
  | NotEquals (d : DateTimeTz)
deriving DecidableEq, Repr

/-- `DateTimeTzFilterSet`. -/
structure DateTimeTzFilterSet where
  val : List DateTimeTzFilter := []
deriving DecidableEq, Repr

/-- `DateTimeTzFilterSet::push`. -/
def DateTimeTzFilterSet.push (s : DateTimeTzFilterSet) (value : DateTimeTzFilter) :
    DateTimeTzFilterSet :=
  ⟨s.val ++ [value]⟩

/-- `DateTimeTzFilterSet::is_empty`. -/
def DateTimeTzFilterSet.is_empty (s : DateTimeTzFilterSet) : Bool := s.val.isEmpty

/-- `ToFieldCond for DateTimeTzFilter`. -/
def DateTimeTzFilter.to_cond (f : DateTimeTzFilter) (iden : String) : Option Cond :=
  some (match f with
  | .Equals val => [.binary iden .eq (.dateTimeTz val)]
  | .NotEquals val => [.binary iden .ne (.dateTimeTz val)]
  | .Before val => [.binary iden .lt (.dateTimeTz val)]
  | .After val => [.binary iden .gte (.dateTimeTz val)])

/-- `ToFieldCond for DateTimeTzFilterSet`. -/
def DateTimeTzFilterSet.to_cond (s : DateTimeTzFilterSet) (iden : String) : Option Cond :=
  some (s.val.foldl (fun conds f =>
    match DateTimeTzFilter.to_cond f iden with
    | some fr => conds ++ fr
    | none => conds) [])

/-- `NumberFilter` from `src/filters/number.rs` (operands are `i64`). -/
inductive NumberFilter where
  | Equals (n : Int)
  | NotEquals (n : Int)
  | LesserThan (n : Int)
  | LesserThanEqual (n : Int)
  | GreaterThan (n : Int)
  | GreaterThanEqual (n : Int)
deriving DecidableEq, Repr

/-- `NumberFilterSet`. -/
structure NumberFilterSet where
  val : List NumberFilter := []
deriving DecidableEq, Repr

/-- `NumberFilterSet::push`. -/
def NumberFilterSet.push (s : NumberFilterSet) (value : NumberFilter) : NumberFilterSet :=
  ⟨s.val ++ [value]⟩

/-- `NumberFilterSet::is_empty`. -/
def NumberFilterSet.is_empty (s : NumberFilterSet) : Bool := s.val.isEmpty

/-- `ToFieldCond for NumberFilter`. -/
def NumberFilter.to_cond (f : NumberFilter) (iden : String) : Option Cond :=
  some (match f with
  | .Equals val => [.binary iden .eq (.int val)]
  | .NotEquals val => [.binary iden .ne (.int val)]
  | .GreaterThan val => [.binary iden .gt (.int val)]
  | .GreaterThanEqual val => [.binary iden .gte (.int val)]
  | .LesserThan val => [.binary iden .lt (.int val)]
  | .LesserThanEqual val => [.binary iden .lte (.int val)])

/-- `ToFieldCond for NumberFilterSet`. -/
def NumberFilterSet.to_cond (s : NumberFilterSet) (iden : String) : Option Cond :=
  some (s.val.foldl (fun conds f =>
    match NumberFilter.to_cond f iden with
    | some fr => conds ++ fr
    | none => conds) [])

/-- `StringFilter` from `src/filters/string.rs`. -/
inductive StringFilter where
  | Contains (s : String)
  | NotContains (s : String)
  | StartsWith (s : String)
  | EndsWith (s : String)
deriving DecidableEq, Repr

/-- `StringFilterSet`. -/
structure StringFilterSet where
  val : List StringFilter := []
deriving DecidableEq, Repr

/-- `StringFilterSet::push`. -/
def StringFilterSet.push (s : StringFilterSet) (value : StringFilter) : StringFilterSet :=
  ⟨s.val ++ [value]⟩

/-- `StringFilterSet::is_empty`. -/
def StringFilterSet.is_empty (s : StringFilterSet) : Bool := s.val.isEmpty

/-- `ToFieldCond for StringFilter`: `["%", &val, "%"].join("")` etc. -/
def StringFilter.to_cond (f : StringFilter) (iden : String) : Option Cond :=
  some (match f with
  | .Contains val => [.like iden (String.intercalate "" ["%", val, "%"])]
  | .NotContains val => [.notLike iden (String.intercalate "" ["%", val, "%"])]
  | .StartsWith val => [.like iden (String.intercalate "" [val, "%"])]
  | .EndsWith val => [.like iden (String.intercalate "" ["%", val])])

/-- `ToFieldCond for StringFilterSet`. -/
def StringFilterSet.to_cond (s : StringFilterSet) (iden : String) : Option Cond :=
  some (s.val.foldl (fun conds f =>
    match StringFilter.to_cond f iden with
    | some fr => conds ++ fr
    | none => conds) [])

/-- `UuidFilter` from `src/filters/uuid.rs`. -/
inductive UuidFilter where
  | Equals (u : Uuid)
  | In (us : List Uuid)
deriving DecidableEq, Repr

/-- `UuidFilterSet`. -/
structure UuidFilterSet where
  val : List UuidFilter := []
deriving DecidableEq, Repr

/-- `UuidFilterSet::push`. -/
def UuidFilterSet.push (s : UuidFilterSet) (value : UuidFilter) : UuidFilterSet :=
  ⟨s.val ++ [value]⟩

/-- `UuidFilterSet::is_empty`. -/
def UuidFilterSet.is_empty (s : UuidFilterSet) : Bool := s.val.isEmpty

/-- `ToFieldCond for UuidFilter`. -/
def UuidFilter.to_cond (f : UuidFilter) (iden : String) : Option Cond :=
  some (match f with
  | .Equals val => [.binary iden .eq (.uuid val)]
  | .In val => [.isIn iden (val.map Value.uuid)])

/-- `ToFieldCond for UuidFilterSet`. -/
def UuidFilterSet.to_cond (s : UuidFilterSet) (iden : String) : Option Cond :=
  some (s.val.foldl (fun conds f =>
    match UuidFilter.to_cond f iden with
    | some fr => conds ++ fr
    | none => conds) [])

/-- sea_query `SelectStatement`, restricted to the clause slots the crate writes. -/
structure SelectStatement where
  whereCond : List Cond := []
  limitVal : Option Int := none
  offsetVal : Option Int := none
  orderBy : List (String × SeaOrder) := []
deriving DecidableEq, Repr

/-- sea_query `DeleteStatement`.  Its builder exposes no OFFSET clause; the
slot records that none is ever emitted. -/
structure DeleteStatement where
  whereCond : List Cond := []
  limitVal : Option Int := none
  offsetVal : Option Int := none
  orderBy : List (String × SeaOrder) := []
deriving DecidableEq, Repr

/-- `ApplyFilters for &mut SelectStatement::apply_filters` (`src/seaq.rs`),
parameterised by the filter-group's `ToCond` impl and `SORTABLE_FIELDS`. -/
def SelectStatement.apply_filters {T : Type} (stmt : SelectStatement)
    (toCond : T → Cond) (sortable : List String) (filters : QueryFilter T) :
    SelectStatement :=
  let offset := filters.get_offset
  let limit := filters.get_limit offset
  let order := filters.get_order
  let sort := filters.get_sort sortable
  let stmt1 :=
    match filters.filter with
    | some f => { stmt with whereCond := stmt.whereCond ++ [toCond f] }
    | none => stmt
  let stmt2 := { stmt1 with offsetVal := some (as_u64 offset),
                            limitVal := some (as_u64 limit) }
  match sort with
  | some field => { stmt2 with orderBy := stmt2.orderBy ++ [(field, order.to_seaquery)] }
  | none => stmt2

/-- `ApplyFilters for &mut DeleteStatement::apply_filters` (`src/seaq.rs`):
the limit is computed with offset 0 and no offset is set. -/
def DeleteStatement.apply_filters {T : Type} (stmt : DeleteStatement)
    (toCond : T → Cond) (sortable : List String) (filters : QueryFilter T) :
    DeleteStatement :=
  let limit := filters.get_limit 0
  let order := filters.get_order
  let sort := filters.get_sort sortable
  let stmt1 :=
    match filters.filter with
    | some f => { stmt with whereCond := stmt.whereCond ++ [toCond f] }
    | none => stmt
  let stmt2 := { stmt1 with limitVal := some (as_u64 limit) }
  match sort with
  | some field => { stmt2 with orderBy := stmt2.orderBy ++ [(field, order.to_seaquery)] }
  | none => stmt2

/-- Strict lexicographic order on calendar dates (chrono's derived `Ord`). -/
def NaiveDate.ltb (a b : NaiveDate) : Bool :=
  a.y < b.y || (a.y == b.y && (a.m < b.m || (a.m == b.m && a.d < b.d)))

/-- Non-strict lexicographic order on calendar dates. -/
def NaiveDate.leb (a b : NaiveDate) : Bool :=
  a.y < b.y || (a.y == b.y && (a.m < b.m || (a.m == b.m && a.d ≤ b.d)))

/-- SQL truth value of a date comparison fragment at a row whose column holds
the date `v`; `>=` is the negation of `<` in the total date order. -/
def Fragment.evalDate (f : Fragment) (v : NaiveDate) : Bool :=
  match f with
  | .binary _ .eq (.date x) => v == x
  | .binary _ .ne (.date x) => !(v == x)
  | .binary _ .lt (.date x) => v.ltb x
  | .binary _ .lte (.date x) => !(x.ltb v)
  | .binary _ .gt (.date x) => x.ltb v
  | .binary _ .gte (.date x) => !(v.ltb x)
  | _ => false

/-- Truth value of a conjunction of fragments at a date-valued row. -/
def Cond.evalDate (c : Cond) (v : NaiveDate) : Bool :=
  c.all (fun f => f.evalDate v)

/-- Membership of `v` in the half-open date interval `[x, y)`. -/
def NaiveDate.memIco (v x y : NaiveDate) : Bool :=
  x.leb v && v.ltb y

/-! ## Helper lemmas -/

theorem wrap32_eq_self {x : Int} (h1 : -(2 ^ 31) ≤ x) (h2 : x < 2 ^ 31) :
    wrap32 x = x := by
  unfold wrap32
  omega

theorem foldl_add_eq_flatMap {α : Type} (g : α → Option Cond) (l : List α) (acc : Cond) :
    l.foldl (fun conds f => match g f with | some fr => conds ++ fr | none => conds) acc
      = acc ++ l.flatMap fun f => (g f).getD [] := by
  induction l generalizing acc with
  | nil => simp
  | cons x xs ih =>
    rw [List.foldl_cons, List.flatMap_cons, ih]
    cases g x <;> simp

theorem date_set_to_cond_eq (s : DateFilterSet) (iden : String) :
    s.to_cond iden = some (s.val.flatMap fun f => (f.to_cond iden).getD []) := by
  simp only [DateFilterSet.to_cond, foldl_add_eq_flatMap, List.nil_append]

theorem datetime_set_to_cond_eq (s : DateTimeFilterSet) (iden : String) :
    s.to_cond iden = some (s.val.flatMap fun f => (f.to_cond iden).getD []) := by
  simp only [DateTimeFilterSet.to_cond, foldl_add_eq_flatMap, List.nil_append]

theorem datetimetz_set_to_cond_eq (s : DateTimeTzFilterSet) (iden : String) :
    s.to_cond iden = some (s.val.flatMap fun f => (f.to_cond iden).getD []) := by
  simp only [DateTimeTzFilterSet.to_cond, foldl_add_eq_flatMap, List.nil_append]

theorem number_set_to_cond_eq (s : NumberFilterSet) (iden : String) :
    s.to_cond iden = some (s.val.flatMap fun f => (f.to_cond iden).getD []) := by
  simp only [NumberFilterSet.to_cond, foldl_add_eq_flatMap, List.nil_append]

theorem string_set_to_cond_eq (s : StringFilterSet) (iden : String) :
    s.to_cond iden = some (s.val.flatMap fun f => (f.to_cond iden).getD []) := by
  simp only [StringFilterSet.to_cond, foldl_add_eq_flatMap, List.nil_append]

theorem uuid_set_to_cond_eq (s : UuidFilterSet) (iden : String) :
    s.to_cond iden = some (s.val.flatMap fun f => (f.to_cond iden).getD []) := by
  simp only [UuidFilterSet.to_cond, foldl_add_eq_flatMap, List.nil_append]

theorem validate_sortable_field_sound (sortable : List String) (field r : String)
    (h : validate_sortable_field sortable field = some r) :
    r ∈ sortable ∧ r = field := by
  induction sortable with
  | nil => simp [validate_sortable_field] at h
  | cons a rest ih =>
    rw [validate_sortable_field] at h
    by_cases ha : a == field
    · rw [if_pos ha] at h
      injection h with h2
      subst h2
      exact ⟨List.mem_cons_self a rest, by simpa using ha⟩
    · rw [if_neg ha] at h
      obtain ⟨hmem, heq⟩ := ih h
      exact ⟨List.mem_cons_of_mem a hmem, heq⟩

theorem validate_sortable_field_mem (sortable : List String) (field : String)
    (h : field ∈ sortable) :
    validate_sortable_field sortable field = some field := by
  induction sortable with
  | nil => cases h
  | cons a rest ih =>
    rw [validate_sortable_field]
    by_cases ha : a == field
    · rw [if_pos ha]
      simp only [beq_iff_eq] at ha
      rw [ha]
    · rw [if_neg ha]
      simp only [beq_iff_eq] at ha
      exact ih (by cases h with
        | head => exact absurd rfl ha
        | tail _ h => exact h)

theorem validate_sortable_field_not_mem (sortable : List String) (field : String)
    (h : field ∉ sortable) :
    validate_sortable_field sortable field = none := by
  induction sortable with
  | nil => rfl
  | cons a rest ih =>
    rw [validate_sortable_field]
    rw [if_neg (by simp only [beq_iff_eq]; exact fun hc => h (hc ▸ List.mem_cons_self a rest))]
    exact ih fun hc => h (List.mem_cons_of_mem a hc)

theorem NaiveDate.not_ltb_eq_leb (a b : NaiveDate) : (!a.ltb b) = b.leb a := by
  obtain ⟨a1, a2, a3⟩ := a
  obtain ⟨b1, b2, b3⟩ := b
  rw [Bool.eq_iff_iff]
  simp [NaiveDate.ltb, NaiveDate.leb]
  omega

/-! ## Claim theorems -/

/-- C2: `get_limit(offset)` is `max(end - offset, 1)` when `end` is present
(whenever the `i32` subtraction does not overflow), is never less than 1,
defaults to 10 when `end` is absent, and is not clamped to
`Filter::get_max_limit()`: some inputs exceed that maximum. -/
theorem C2_get_limit :
    (∀ (q : QueryFilter Unit) (offset e : Int), q.«end» = some e →
        -(2 ^ 31) ≤ e - offset → e - offset < 2 ^ 31 →
        q.get_limit offset = max (e - offset) 1)
    ∧ (∀ (q : QueryFilter Unit) (offset : Int), 1 ≤ q.get_limit offset)
    ∧ (∀ (q : QueryFilter Unit) (offset : Int), q.«end» = none → q.get_limit offset = 10)
    ∧ (∃ (q : QueryFilter Unit) (offset : Int), get_max_limit < q.get_limit offset) := by
  refine ⟨?_, ?_, ?_, ?_⟩
  · intro q offset e he h1 h2
    simp only [QueryFilter.get_limit, he, wrap32_eq_self h1 h2]
  · intro q offset
    unfold QueryFilter.get_limit
    cases q.«end» with
    | some e => exact le_max_right _ _
    | none => norm_num
  · intro q offset he
    simp only [QueryFilter.get_limit, he]
  · refine ⟨⟨none, some 200, none, none, none⟩, 0, ?_⟩
    simp only [QueryFilter.get_limit, get_max_limit, wrap32]
    decide

/-- C2 witness: `end = 100`, `offset = 10` gives limit `90`, and limit can
exceed the declared maximum. -/
theorem C2_get_limit_witness :
    (⟨none, some 100, none, none, none⟩ : QueryFilter Unit).get_limit 10
      = max ((100 : Int) - 10) 1 :=
  C2_get_limit.1 ⟨none, some 100, none, none, none⟩ 10 100 rfl (by decide) (by decide)

/-- C5: `get_offset()` returns `start` unmodified when present (negative
values included, with no clamping) and 0 when absent. -/
theorem C5_get_offset :
    (∀ (T : Type) (q : QueryFilter T) (s : Int), q.start = some s → q.get_offset = s)
    ∧ (∀ (T : Type) (q : QueryFilter T), q.start = none → q.get_offset = 0) := by
  constructor
  · intro T q s hs
    simp only [QueryFilter.get_offset, hs]
  · intro T q hs
    simp only [QueryFilter.get_offset, hs]

/-- C5 witness: a negative `start` of `-7` is passed through unmodified. -/
theorem C5_get_offset_witness :
    (⟨some (-7), none, none, none, none⟩ : QueryFilter Unit).get_offset = -7 :=
  C5_get_offset.1 Unit ⟨some (-7), none, none, none, none⟩ (-7) rfl

/-- C1 counterexample: an empty `DateFilterSet` has `is_empty() = true`, yet
`to_cond` returns `Some` (of an empty conjunction), not `None`. -/
theorem C1_counterexample :
    (DateFilterSet.mk []).is_empty = true
      ∧ (DateFilterSet.mk []).to_cond "c" ≠ none := by
  constructor
  · rfl
  · rw [date_set_to_cond_eq]
    simp

/-- C1 (amended): for every FilterSet of any domain, `to_cond(column)` returns
`Some` of the conjunction of the per-instance conditions in insertion order;
for an empty set this is `Some` of the empty conjunction (which contributes no
predicate fragments), never `None`. -/
theorem C1_set_cond :
    (∀ (s : DateFilterSet) (iden : String),
        s.to_cond iden = some (s.val.flatMap fun f => (f.to_cond iden).getD [])
        ∧ (s.is_empty = true → s.to_cond iden = some []))
    ∧ (∀ (s : DateTimeFilterSet) (iden : String),
        s.to_cond iden = some (s.val.flatMap fun f => (f.to_cond iden).getD [])
        ∧ (s.is_empty = true → s.to_cond iden = some []))
    ∧ (∀ (s : DateTimeTzFilterSet) (iden : String),
        s.to_cond iden = some (s.val.flatMap fun f => (f.to_cond iden).getD [])
        ∧ (s.is_empty = true → s.to_cond iden = some []))
    ∧ (∀ (s : NumberFilterSet) (iden : String),
        s.to_cond iden = some (s.val.flatMap fun f => (f.to_cond iden).getD [])
        ∧ (s.is_empty = true → s.to_cond iden = some []))
    ∧ (∀ (s : StringFilterSet) (iden : String),
        s.to_cond iden = some (s.val.flatMap fun f => (f.to_cond iden).getD [])
        ∧ (s.is_empty = true → s.to_cond iden = some []))
    ∧ (∀ (s : UuidFilterSet) (iden : String),
        s.to_cond iden = some (s.val.flatMap fun f => (f.to_cond iden).getD [])
        ∧ (s.is_empty = true → s.to_cond iden = some [])) := by
  refine ⟨fun s iden => ⟨date_set_to_cond_eq s iden, fun he => ?_⟩,
          fun s iden => ⟨datetime_set_to_cond_eq s iden, fun he => ?_⟩,
          fun s iden => ⟨datetimetz_set_to_cond_eq s iden, fun he => ?_⟩,
          fun s iden => ⟨number_set_to_cond_eq s iden, fun he => ?_⟩,
          fun s iden => ⟨string_set_to_cond_eq s iden, fun he => ?_⟩,
          fun s iden => ⟨uuid_set_to_cond_eq s iden, fun he => ?_⟩⟩
  · have hv : s.val = [] := by simpa [DateFilterSet.is_empty] using he
    rw [date_set_to_cond_eq s, hv]
    rfl
  · have hv : s.val = [] := by simpa [DateTimeFilterSet.is_empty] using he
    rw [datetime_set_to_cond_eq s, hv]
    rfl
  · have hv : s.val = [] := by simpa [DateTimeTzFilterSet.is_empty] using he
    rw [datetimetz_set_to_cond_eq s, hv]
    rfl
  · have hv : s.val = [] := by simpa [NumberFilterSet.is_empty] using he
    rw [number_set_to_cond_eq s, hv]
    rfl
  · have hv : s.val = [] := by simpa [StringFilterSet.is_empty] using he
    rw [string_set_to_cond_eq s, hv]
    rfl
  · have hv : s.val = [] := by simpa [UuidFilterSet.is_empty] using he
    rw [uuid_set_to_cond_eq s, hv]
    rfl

/-- C1 witness: the amended statement evaluated on an empty and a one-element
number filter set. -/
theorem C1_set_cond_witness :
    (NumberFilterSet.mk []).to_cond "age" = some []
      ∧ (NumberFilterSet.mk [.LesserThan 50]).to_cond "age"
          = some [.binary "age" .lt (.int 50)] :=
  ⟨(C1_set_cond.2.2.2.1 ⟨[]⟩ "age").2 rfl,
   (C1_set_cond.2.2.2.1 ⟨[.LesserThan 50]⟩ "age").1⟩

/-- C3: for every temporal domain, `Before(x)` compiles to a strict `<`
comparison and `After(x)` to a non-strict `>=` comparison; consequently the
set built by pushing `After X` then `Before Y` evaluates, on a date `v`,
exactly to membership of `v` in the half-open interval `[X, Y)`. -/
theorem C3_before_after :
    (∀ (x : NaiveDate) (iden : String),
        (DateFilter.Before x).to_cond iden = some [.binary iden .lt (.date x)]
        ∧ (DateFilter.After x).to_cond iden = some [.binary iden .gte (.date x)])
    ∧ (∀ (x : NaiveDateTime) (iden : String),
        (DateTimeFilter.Before x).to_cond iden = some [.binary iden .lt (.dateTime x)]
        ∧ (DateTimeFilter.After x).to_cond iden = some [.binary iden .gte (.dateTime x)])
    ∧ (∀ (x : DateTimeTz) (iden : String),
        (DateTimeTzFilter.Before x).to_cond iden = some [.binary iden .lt (.dateTimeTz x)]
        ∧ (DateTimeTzFilter.After x).to_cond iden = some [.binary iden .gte (.dateTimeTz x)])
    ∧ (∀ (X Y v : NaiveDate) (iden : String),
        Cond.evalDate
          (((((DateFilterSet.mk []).push (.After X)).push (.Before Y)).to_cond iden).getD [])
          v
          = v.memIco X Y) := by
  refine ⟨fun x iden => ⟨rfl, rfl⟩, fun x iden => ⟨rfl, rfl⟩, fun x iden => ⟨rfl, rfl⟩,
          fun X Y v iden => ?_⟩
  show Cond.evalDate [.binary iden .gte (.date X), .binary iden .lt (.date Y)] v = _
  simp only [Cond.evalDate, List.all_cons, List.all_nil, Fragment.evalDate,
    NaiveDate.memIco, NaiveDate.not_ltb_eq_leb, Bool.and_true]

/-- C4: `push` appends at the end of the ordered collection for every domain,
never deduplicates (pushing the same instance twice keeps both), and the
compiled set condition conjoins per-instance fragments in insertion order:
`After X` then `Before Y` renders `col >= X AND col < Y`. -/
theorem C4_push_order :
    (∀ (s : DateFilterSet) (v : DateFilter), (s.push v).val = s.val ++ [v])
    ∧ (∀ (s : DateFilterSet) (v : DateFilter), ((s.push v).push v).val = s.val ++ [v, v])
    ∧ (∀ (s : DateFilterSet) (iden : String),
        s.to_cond iden = some (s.val.flatMap fun f => (f.to_cond iden).getD []))
    ∧ (∀ (X Y : NaiveDate) (iden : String),
        (((DateFilterSet.mk []).push (.After X)).push (.Before Y)).to_cond iden
          = some [.binary iden .gte (.date X), .binary iden .lt (.date Y)])
    ∧ (∀ (s : DateTimeFilterSet) (v : DateTimeFilter), (s.push v).val = s.val ++ [v])
    ∧ (∀ (s : DateTimeTzFilterSet) (v : DateTimeTzFilter), (s.push v).val = s.val ++ [v])
    ∧ (∀ (s : NumberFilterSet) (v : NumberFilter), (s.push v).val = s.val ++ [v])
    ∧ (∀ (s : StringFilterSet) (v : StringFilter), (s.push v).val = s.val ++ [v])
    ∧ (∀ (s : UuidFilterSet) (v : UuidFilter), (s.push v).val = s.val ++ [v]) := by
  refine ⟨fun s v => rfl, fun s v => by simp [DateFilterSet.push],
          fun s iden => date_set_to_cond_eq s iden, fun X Y iden => rfl,
          fun s v => rfl, fun s v => rfl, fun s v => rfl, fun s v => rfl, fun s v => rfl⟩

/-- C6: the four string operators compile to pattern matches with the
documented wildcard placement. -/
theorem C6_string_wildcards :
    ∀ (s : String) (iden : String),
      (StringFilter.Contains s).to_cond iden = some [.like iden ("%" ++ s ++ "%")]
      ∧ (StringFilter.NotContains s).to_cond iden = some [.notLike iden ("%" ++ s ++ "%")]
      ∧ (StringFilter.StartsWith s).to_cond iden = some [.like iden (s ++ "%")]
      ∧ (StringFilter.EndsWith s).to_cond iden = some [.like iden ("%" ++ s)] := by
  intro s iden
  refine ⟨?_, ?_, ?_, ?_⟩ <;>
    simp [StringFilter.to_cond, String.intercalate, String.intercalate.go,
      String.append_empty]

/-- C7: `get_sort()` is `None` when the sort field is absent; when present it
returns the matching name from `SORTABLE_FIELDS`, and `None` (no error) when
the requested field is not declared sortable. -/
theorem C7_get_sort :
    (∀ (T : Type) (sortable : List String) (q : QueryFilter T),
        q.sort = none → q.get_sort sortable = none)
    ∧ (∀ (T : Type) (sortable : List String) (q : QueryFilter T) (f : String),
        q.sort = some f →
        (f ∈ sortable → q.get_sort sortable = some f)
        ∧ (f ∉ sortable → q.get_sort sortable = none)) := by
  constructor
  · intro T sortable q hs
    simp only [QueryFilter.get_sort, hs]
  · intro T sortable q f hs
    constructor
    · intro hmem
      simp only [QueryFilter.get_sort, hs]
      exact validate_sortable_field_mem sortable f hmem
    · intro hmem
      simp only [QueryFilter.get_sort, hs]
      exact validate_sortable_field_not_mem sortable f hmem

/-- C7 witness: a declared field is returned, an undeclared one silently
yields `none`, and an absent sort yields `none`. -/
theorem C7_get_sort_witness :
    (⟨none, none, some "age", none, none⟩ : QueryFilter Unit).get_sort ["name", "age"]
        = some "age"
    ∧ (⟨none, none, some "oops", none, none⟩ : QueryFilter Unit).get_sort ["name", "age"]
        = none
    ∧ (⟨none, none, none, none, none⟩ : QueryFilter Unit).get_sort ["name", "age"] = none :=
  ⟨(C7_get_sort.2 Unit ["name", "age"] ⟨none, none, some "age", none, none⟩ "age" rfl).1
      (by decide),
   (C7_get_sort.2 Unit ["name", "age"] ⟨none, none, some "oops", none, none⟩ "oops" rfl).2
      (by decide),
   C7_get_sort.1 Unit ["name", "age"] ⟨none, none, none, none, none⟩ rfl⟩

/-- C8: `get_order()` parses the order string case-insensitively: any casing
of `ASC` gives `Asc`, any casing of `DESC` gives `Desc`; anything else, or an
absent order, gives `Order::None`, which `as_str` and `to_seaquery` render
exactly as `Asc`. -/
theorem C8_get_order :
    (∀ (T : Type) (q : QueryFilter T) (s : String), q.order = some s →
        (to_ascii_uppercase s = "ASC" → q.get_order = .Asc)
        ∧ (to_ascii_uppercase s = "DESC" → q.get_order = .Desc)
        ∧ (to_ascii_uppercase s ≠ "ASC" → to_ascii_uppercase s ≠ "DESC" →
            q.get_order = .None))
    ∧ (∀ (T : Type) (q : QueryFilter T), q.order = none → q.get_order = .None)
    ∧ Order.None.as_str = Order.Asc.as_str
    ∧ Order.None.to_seaquery = Order.Asc.to_seaquery := by
  refine ⟨?_, ?_, rfl, rfl⟩
  · intro T q s hq
    refine ⟨fun h => ?_, fun h => ?_, fun h1 h2 => ?_⟩
    · simp only [QueryFilter.get_order, hq, Order.from_str]
      split <;> simp_all
    · simp only [QueryFilter.get_order, hq, Order.from_str]
      split <;> simp_all
    · simp only [QueryFilter.get_order, hq, Order.from_str]
  · intro T q hq
    simp only [QueryFilter.get_order, hq]

/-- C8 witness: mixed-case `"dEsC"` parses as `Desc`, `"asc"` as `Asc`,
`"sideways"` and an absent order as `Order::None`. -/
theorem C8_get_order_witness :
    (⟨none, none, none, some "dEsC", none⟩ : QueryFilter Unit).get_order = .Desc
    ∧ (⟨none, none, none, some "asc", none⟩ : QueryFilter Unit).get_order = .Asc
    ∧ (⟨none, none, none, some "sideways", none⟩ : QueryFilter Unit).get_order = .None
    ∧ (⟨none, none, none, none, none⟩ : QueryFilter Unit).get_order = .None :=
  ⟨(C8_get_order.1 Unit ⟨none, none, none, some "dEsC", none⟩ "dEsC" rfl).2.1 (by decide),
   (C8_get_order.1 Unit ⟨none, none, none, some "asc", none⟩ "asc" rfl).1 (by decide),
   (C8_get_order.1 Unit ⟨none, none, none, some "sideways", none⟩ "sideways" rfl).2.2
      (by decide) (by decide),
   C8_get_order.2.1 Unit ⟨none, none, none, none, none⟩ rfl⟩

/-- C9: applying a QueryFilter to a delete statement computes the limit with
offset 0 — `max(end, 1)` when `end` is present (for any in-range `i32` end),
10 when absent, independent of `start` — and attaches no OFFSET clause. -/
theorem C9_delete_limit :
    ∀ (T : Type) (toCond : T → Cond) (sortable : List String)
      (stmt : DeleteStatement) (q : QueryFilter T),
      (stmt.apply_filters toCond sortable q).limitVal = some (as_u64 (q.get_limit 0))
      ∧ (stmt.apply_filters toCond sortable q).offsetVal = stmt.offsetVal
      ∧ (∀ (s : Option Int),
          (stmt.apply_filters toCond sortable ⟨s, q.«end», q.sort, q.order, q.filter⟩).limitVal
            = (stmt.apply_filters toCond sortable q).limitVal)
      ∧ (∀ (e : Int), q.«end» = some e → -(2 ^ 31) ≤ e → e < 2 ^ 31 →
          (stmt.apply_filters toCond sortable q).limitVal = some (max e 1))
      ∧ (q.«end» = none → (stmt.apply_filters toCond sortable q).limitVal = some 10) := by
  intro T toCond sortable stmt q
  have hlim : ∀ (q' : QueryFilter T),
      (stmt.apply_filters toCond sortable q').limitVal = some (as_u64 (q'.get_limit 0)) := by
    intro q'
    unfold DeleteStatement.apply_filters
    cases q'.filter <;> cases hs : q'.get_sort sortable <;> simp [hs]
  refine ⟨hlim q, ?_, ?_, ?_, ?_⟩
  · unfold DeleteStatement.apply_filters
    cases q.filter <;> cases hs : q.get_sort sortable <;> simp [hs]
  · intro s
    rw [hlim, hlim]
    rfl
  · intro e he h1 h2
    rw [hlim q]
    have hg : q.get_limit 0 = max e 1 := by
      simp only [QueryFilter.get_limit, he, Int.sub_zero, wrap32_eq_self h1 h2]
    rw [hg]
    have hmax : (1 : Int) ≤ max e 1 := le_max_right e 1
    unfold as_u64
    congr 1
    omega
  · intro he
    rw [hlim q]
    have hg : q.get_limit 0 = 10 := by simp only [QueryFilter.get_limit, he]
    rw [hg]
    rfl

/-- C9 witness: `start = 50, end = 5` against a delete statement gives limit
`max 5 1 = 1` and leaves the offset slot untouched. -/
theorem C9_delete_limit_witness :
    ((DeleteStatement.mk [] none none []).apply_filters (fun _ : Unit => []) []
        ⟨some 50, some 5, none, none, none⟩).limitVal = some (max 5 1) :=
  (C9_delete_limit Unit (fun _ => []) [] ⟨[], none, none, []⟩
      ⟨some 50, some 5, none, none, none⟩).2.2.2.1 5 rfl (by decide) (by decide)

/-- C10: `validate_sortable_field` only ever returns an element of
`SORTABLE_FIELDS` equal to the requested name, `get_sort()` only yields
declared sortable fields, and every ORDER BY entry the select applier adds is
on a declared sortable field. -/
theorem C10_sortable_invariant :
    (∀ (sortable : List String) (field r : String),
        validate_sortable_field sortable field = some r → r ∈ sortable ∧ r = field)
    ∧ (∀ (T : Type) (sortable : List String) (q : QueryFilter T) (r : String),
        q.get_sort sortable = some r → r ∈ sortable)
    ∧ (∀ (T : Type) (toCond : T → Cond) (sortable : List String)
        (stmt : SelectStatement) (q : QueryFilter T) (e : String × SeaOrder),
        e ∈ (stmt.apply_filters toCond sortable q).orderBy →
        e ∈ stmt.orderBy ∨ e.1 ∈ sortable) := by
  have hsort : ∀ (T : Type) (sortable : List String) (q : QueryFilter T) (r : String),
      q.get_sort sortable = some r → r ∈ sortable := by
    intro T sortable q r h
    unfold QueryFilter.get_sort at h
    cases hq : q.sort with
    | some f =>
      rw [hq] at h
      exact (validate_sortable_field_sound sortable f r h).1
    | none => rw [hq] at h; cases h
  refine ⟨fun sortable field r h => validate_sortable_field_sound sortable field r h,
          hsort, ?_⟩
  intro T toCond sortable stmt q e he
  unfold SelectStatement.apply_filters at he
  cases hf : q.filter <;> cases hs : q.get_sort sortable <;>
    simp only [hf, hs] at he
  · exact Or.inl he
  · rcases List.mem_append.mp he with h | h
    · exact Or.inl h
    · rcases List.mem_singleton.mp h with rfl
      exact Or.inr (hsort T sortable q _ hs)
  · exact Or.inl he
  · rcases List.mem_append.mp he with h | h
    · exact Or.inl h
    · rcases List.mem_singleton.mp h with rfl
      exact Or.inr (hsort T sortable q _ hs)

/-- C10 witness: with `SORTABLE_FIELDS = ["age"]` and `sort = "age"`, the
single ORDER BY entry the applier adds is on a declared field. -/
theorem C10_sortable_invariant_witness :
    ("age", SeaOrder.Asc) ∈ (SelectStatement.mk [] none none []).orderBy
      ∨ ("age", SeaOrder.Asc).1 ∈ ["age"] :=
  C10_sortable_invariant.2.2 Unit (fun _ => []) ["age"] ⟨[], none, none, []⟩
    ⟨none, none, some "age", none, none⟩ ("age", SeaOrder.Asc) (by decide)

end Seaqs
